import Mathlib

/-!
# Verification of the hand-gesture control pipeline

A shallow embedding, in Lean 4, of the decision pipeline of the
hand-gesture control repository: gesture classification (geometric and
KNN), temporal smoothing, hold-time/cooldown triggering, mode
arbitration between cursor control and action trigger, coordinate
remapping, and click/drag disambiguation.

Conventions of the embedding:
* Python floats are modelled as rationals (`ℚ`); timestamps from
  `time.time()` are rationals as well.
* Euclidean distances appear in the source only in comparisons against
  nonnegative constants (`drag_distance < 10`, `distance > threshold`)
  and in monotone selections (nearest-neighbour sorting).  The embedding
  carries the *squared* distance throughout and compares it against the
  squared constant; since `Real.sqrt` is monotone and both sides are
  nonnegative, every comparison and every ordering is preserved exactly.
  The one place where this is not an exact transformation is the KNN
  out-of-distribution penalty (`mean of the k distances > 0.5`), which
  the embedding renders as `mean of the k squared distances > 0.25`;
  this affects only the returned confidence scalar, never which label
  (or `none`) is returned.
* Side effects on the OS pointer (`pyautogui.mouseDown`, `mouseUp`,
  `moveTo`, `press`) are modelled as explicit event values returned next
  to the successor state.
* A hand is a list of landmarks; the source indexes landmark lists
  directly, always within the 21 entries that the hand detector
  produces, so the embedding indexes with `List.getD` (default origin).
-/

/-- One normalized landmark point, as produced by the hand detector:
a dictionary with `x` and `y` keys in the source. -/
structure Landmark where
  x : ℚ
  y : ℚ
deriving Repr, DecidableEq

/-- A detected hand: the source passes around `hand['landmarks']`, a
list of 21 landmark dictionaries. -/
abbrev Hand := List Landmark

/-- Landmark lookup, `landmarks[i]` in the source (always in bounds on
executed paths). -/
def lmGet (h : Hand) (i : ℕ) : Landmark := h.getD i ⟨0, 0⟩

/-- Python's `max(lo, min(v, hi))` clamping idiom on rationals. -/
def clampQ (lo hi v : ℚ) : ℚ := max lo (min v hi)

/-- Squared Euclidean distance between two points given by coordinates;
stands for `((x1-x0)**2 + (y1-y0)**2)**0.5` in the source, squared
(see the module comment on monotonicity of the square root). -/
def sqDist (x0 y0 x1 y1 : ℚ) : ℚ := (x1 - x0) ^ 2 + (y1 - y0) ^ 2

section MouseController
/-!
## `mouse_controller.py` — `MouseController`

State and operations of the cursor mapper / click-drag dispatcher.
Screen size is a parameter (`pyautogui.size()` in the source), as are
the configured thresholds.
-/

/-- Configuration of `MouseController.__init__`: constructor arguments
together with the constants fixed in `__init__`. -/
structure MouseConfig where
  smoothing_factor : ℚ := 3/10
  drag_smoothing_factor : ℚ := 7/10
  click_cooldown : ℚ := 3/10
  screen_margin : ℤ := 50
  movement_threshold : ℚ := 2
  drag_movement_threshold : ℚ := 0
  tracking_zone_min : ℚ := 15/100
  tracking_zone_max : ℚ := 85/100
  screen_width : ℤ := 1920
  screen_height : ℤ := 1080
  min_drag_time : ℚ := 15/100
deriving Repr

/-- Mutable state of `MouseController` (the per-frame fields). -/
structure MouseState where
  smooth_x : ℚ
  smooth_y : ℚ
  last_click_time : ℚ
  previous_gesture : String
  is_clicking : Bool
  is_dragging : Bool
  drag_start_x : ℚ
  drag_start_y : ℚ
  drag_start_time : ℚ
deriving Repr, DecidableEq

/-- Pointer commands issued to the injection layer. -/
inductive MouseEvent where
  | press
  | release
  | moveTo (x y : ℤ)
deriving Repr, DecidableEq

/-- `MouseController.map_to_screen`: remap a normalized hand coordinate
from the tracking zone to the full screen, then clamp into the margin
band.  `int(...)` in Python truncates toward zero; the remapped value is
clamped into `[0,1]` first, hence nonnegative, so truncation is
`Int.floor`. -/
def map_to_screen (cfg : MouseConfig) (hand_x hand_y : ℚ) : ℤ × ℤ :=
  let zone_width := cfg.tracking_zone_max - cfg.tracking_zone_min
  let remapped_x := (hand_x - cfg.tracking_zone_min) / zone_width
  let remapped_x := max 0 (min 1 remapped_x)
  let remapped_y := (hand_y - cfg.tracking_zone_min) / zone_width
  let remapped_y := max 0 (min 1 remapped_y)
  let screen_x : ℤ := ⌊remapped_x * (cfg.screen_width : ℚ)⌋
  let screen_y : ℤ := ⌊remapped_y * (cfg.screen_height : ℚ)⌋
  let screen_x := max cfg.screen_margin (min screen_x (cfg.screen_width - cfg.screen_margin))
  let screen_y := max cfg.screen_margin (min screen_y (cfg.screen_height - cfg.screen_margin))
  (screen_x, screen_y)

/-- `MouseController.smooth_position`: exponential moving average with
the drag-specific factor while dragging.  Returns the updated state and
the integer-truncated smoothed position (the source returns
`int(self.smooth_x), int(self.smooth_y)`; both are nonnegative on
executed paths, where truncation is flooring). -/
def smooth_position (cfg : MouseConfig) (s : MouseState) (new_x new_y : ℚ) :
    MouseState × ℤ × ℤ :=
  let factor := if s.is_dragging then cfg.drag_smoothing_factor else cfg.smoothing_factor
  let sx := factor * new_x + (1 - factor) * s.smooth_x
  let sy := factor * new_y + (1 - factor) * s.smooth_y
  ({ s with smooth_x := sx, smooth_y := sy }, ⌊sx⌋, ⌊sy⌋)

/-- `MouseController.cleanup`: release the button iff a drag is active.
Returns the successor state and the issued pointer commands. -/
def cleanup (s : MouseState) : MouseState × List MouseEvent :=
  if s.is_dragging then
    ({ s with is_dragging := false, is_clicking := false }, [.release])
  else
    (s, [])

/-- `MouseController.move_cursor`: map, smooth, then move the pointer if
the (squared) distance to the current pointer position exceeds the
(squared) movement threshold.  `failsafe` models
`pyautogui.FailSafeException` raised by the `moveTo` call (the emergency
stop); the handler releases the button if a drag is active, clears
`is_dragging` and re-raises.  The result's boolean is `true` when the
exception propagates to the caller. -/
def move_cursor (cfg : MouseConfig) (s : MouseState)
    (hand_x hand_y : ℚ) (cur_x cur_y : ℤ) (failsafe : Bool) :
    MouseState × List MouseEvent × Bool :=
  let (screen_x, screen_y) := map_to_screen cfg hand_x hand_y
  let (s, smooth_x, smooth_y) := smooth_position cfg s (screen_x : ℚ) (screen_y : ℚ)
  let threshold := if s.is_dragging then cfg.drag_movement_threshold else cfg.movement_threshold
  let distSq := sqDist (cur_x : ℚ) (cur_y : ℚ) (smooth_x : ℚ) (smooth_y : ℚ)
  if distSq > threshold ^ 2 then
    if failsafe then
      if s.is_dragging then
        ({ s with is_dragging := false }, [.release], true)
      else
        (s, [], true)
    else
      (s, [.moveTo smooth_x smooth_y], false)
  else
    (s, [], false)

/-- Outcome classification printed by `handle_click` on a
closed-to-open transition. -/
inductive ClickOutcome where
  | click
  | dragEnded
  | none
deriving Repr, DecidableEq

/-- `MouseController.handle_click`: edge-triggered press on
open→closed (guarded by the click cooldown), release and click/drag
classification on closed→open.  `cur_x, cur_y` is
`pyautogui.position()`; `now` is `time.time()`. -/
def handle_click (cfg : MouseConfig) (s : MouseState) (gesture : String)
    (cur_x cur_y : ℤ) (now : ℚ) : MouseState × List MouseEvent × ClickOutcome :=
  let (s, evs, outcome) :=
    if gesture = "closed" ∧ s.previous_gesture = "open" then
      if now - s.last_click_time > cfg.click_cooldown then
        if ¬s.is_dragging then
          ({ s with is_dragging := true,
                    drag_start_x := (cur_x : ℚ), drag_start_y := (cur_y : ℚ),
                    drag_start_time := now, is_clicking := true },
           [MouseEvent.press], ClickOutcome.none)
        else (s, [], ClickOutcome.none)
      else (s, [], ClickOutcome.none)
    else if gesture = "open" ∧ s.previous_gesture = "closed" then
      if s.is_dragging then
        let drag_distanceSq := sqDist s.drag_start_x s.drag_start_y (cur_x : ℚ) (cur_y : ℚ)
        let drag_duration := now - s.drag_start_time
        let s := { s with is_dragging := false, last_click_time := now }
        if drag_distanceSq < 10 ^ 2 ∧ drag_duration < cfg.min_drag_time then
          (s, [MouseEvent.release], ClickOutcome.click)
        else
          (s, [MouseEvent.release], ClickOutcome.dragEnded)
      else (s, [], ClickOutcome.none)
    else (s, [], ClickOutcome.none)
  let s := if gesture = "open" then { s with is_clicking := false } else s
  ({ s with previous_gesture := gesture }, evs, outcome)

end MouseController

section GestureRecognizer
/-!
## `gesture_recognizer.py` — `GestureRecognizer`

The open/closed label computation and the temporal majority smoothing.
`detect_gesture` additionally drives a finger-count key-press machine;
those fields are written but never read by the label computation, so the
embedding models the returned label (the early `return
self.previous_gesture` path touches none of the state).
-/

/-- `GestureRecognizer.is_finger_extended`: tip above the PIP joint by
more than the 0.02 epsilon (image y grows downward). -/
def is_finger_extended (landmarks : Hand) (tip_idx pip_idx : ℕ) : Bool :=
  (lmGet landmarks tip_idx).y < (lmGet landmarks pip_idx).y - 2/100

/-- `GestureRecognizer.is_thumb_extended`: horizontal test with a 0.01
epsilon. -/
def is_thumb_extended (landmarks : Hand) (tip_idx pip_idx : ℕ) : Bool :=
  (lmGet landmarks tip_idx).x > (lmGet landmarks pip_idx).x - 1/100

/-- The mutable state of `GestureRecognizer` used by the smoothed-label
path: the configured window size, the bounded gesture history (a deque
with `maxlen = smoothing_frames`), and the previous gesture. -/
structure RecognizerState where
  smoothing_frames : ℕ := 5
  gesture_history : List String := []
  previous_gesture : String := "open"
deriving Repr, DecidableEq

/-- The finger tip/PIP index pairs checked by `detect_gesture`
(index, middle, ring, pinky). -/
def finger_pairs : List (ℕ × ℕ) := [(8, 6), (12, 10), (16, 14), (20, 18)]

/-- `GestureRecognizer.detect_gesture`: with missing or short landmark
lists return the previous gesture; otherwise count the extended fingers
(the four y-rule fingers plus the thumb x-rule) and return `"open"` iff
at least one is extended. -/
def detect_gesture (s : RecognizerState) (landmarks : Option Hand) : String :=
  match landmarks with
  | none => s.previous_gesture
  | some lm =>
    if lm.length < 21 then s.previous_gesture
    else
      let fingers_extended :=
        (finger_pairs.map fun p => is_finger_extended lm p.1 p.2) ++
          [is_thumb_extended lm 4 2]
      let total_fingers_extended := (fingers_extended.filter id).length
      let open_gesture := 1 ≤ total_fingers_extended
      if ¬open_gesture then "closed" else "open"

/-- Pushing one entry into a bounded deque (`collections.deque` with
`maxlen`): append, then evict from the left down to the bound. -/
def dequePush {α : Type} (maxlen : ℕ) (h : List α) (a : α) : List α :=
  let h := h ++ [a]
  if maxlen < h.length then h.drop (h.length - maxlen) else h

/-- `GestureRecognizer.get_smoothed_gesture`: detect, push into the
history, return the raw gesture while the window is not yet full,
otherwise the majority vote (`"closed"` iff closed strictly outnumbers
open).  Returns the successor state and the smoothed label. -/
def get_smoothed_gesture (s : RecognizerState) (landmarks : Option Hand) :
    RecognizerState × String :=
  let current_gesture := detect_gesture s landmarks
  let history := dequePush s.smoothing_frames s.gesture_history current_gesture
  if history.length < s.smoothing_frames then
    ({ s with gesture_history := history, previous_gesture := current_gesture },
     current_gesture)
  else
    let open_count := (history.filter (· = "open")).length
    let closed_count := (history.filter (· = "closed")).length
    let smoothed_gesture := if open_count < closed_count then "closed" else "open"
    ({ s with gesture_history := history, previous_gesture := smoothed_gesture },
     smoothed_gesture)

end GestureRecognizer

section ClashController
/-!
## `clash_controller.py` — `GestureClassifier` and `ClashEmoteApp`

The KNN gesture classifier, the rule-based emote fallback, the emote
trigger pipeline, and the mode arbitration of the main loop.
-/

/-- `ClashEmoteApp.is_hand_closed`: count, over the four non-thumb
tip/PIP pairs, the fingers with `tip.y > pip.y - 0.02`; closed iff at
least three. -/
def is_hand_closed (landmarks : Hand) : Bool :=
  let closed_count :=
    (finger_pairs.filter fun p =>
      (lmGet landmarks p.1).y > (lmGet landmarks p.2).y - 2/100).length
  3 ≤ closed_count

/-- Per-hand feature block of `GestureClassifier.extract_features`:
center, four extension booleans (plain `tip.y < pip.y`, no epsilon),
the center height again, and the index-to-pinky fingertip spread.  The
spread is `np.sqrt(...)` in the source; the embedding stores its square
(see the module comment). -/
def hand_feature_block (landmarks : Hand) : Option (List ℚ) :=
  if landmarks.length < 21 then none
  else
    let wrist := lmGet landmarks 0
    let middle_base := lmGet landmarks 9
    let center_x := (wrist.x + middle_base.x) / 2
    let center_y := (wrist.y + middle_base.y) / 2
    let ext := finger_pairs.map fun p =>
      if (lmGet landmarks p.1).y < (lmGet landmarks p.2).y then (1 : ℚ) else 0
    let index_tip := lmGet landmarks 8
    let pinky_tip := lmGet landmarks 20
    let spreadSq := sqDist index_tip.x index_tip.y pinky_tip.x pinky_tip.y
    some ([center_x, center_y] ++ ext ++ [center_y, spreadSq])

/-- `GestureClassifier.extract_features`: requires at least two hands
and 21 landmarks on each of the first two; concatenates the two per-hand
blocks, returning `None` otherwise. -/
def extract_features (hands_data : List Hand) : Option (List ℚ) :=
  if hands_data.length < 2 then none
  else
    match hands_data with
    | h1 :: h2 :: _ =>
      match hand_feature_block h1, hand_feature_block h2 with
      | some f1, some f2 => some (f1 ++ f2)
      | _, _ => none
    | _ => none

/-- The stored training set of `GestureClassifier`
(`self.training_data`). -/
structure TrainingData where
  features : List (List ℚ)
  labels : List String
deriving Repr

/-- Squared Euclidean distance between two feature vectors
(`np.sqrt(np.sum((a - b)**2))` in the source, squared). -/
def sqDistVec (a b : List ℚ) : ℚ :=
  ((a.zip b).map fun p => (p.1 - p.2) ^ 2).sum

/-- Insert an index into a list of indices kept sorted by `key`
(stable: equal keys keep the earlier index first). -/
def insertByKey (key : ℕ → ℚ) (i : ℕ) : List ℕ → List ℕ
  | [] => [i]
  | j :: rest => if key i < key j then i :: j :: rest else j :: insertByKey key i rest

/-- `np.argsort` over the first `n` indices by `key` (a stable sort;
`np.argsort`'s quicksort may order exact ties differently, which can
matter only between training samples at identical distance). -/
def argsortByKey (key : ℕ → ℚ) (n : ℕ) : List ℕ :=
  (List.range n).foldl (fun acc i => insertByKey key i acc) []

/-- Occurrence counts of each label, in first-appearance order
(`np.unique(..., return_counts=True)` sorts the labels instead; the
order matters only when two labels tie for the majority among the k
neighbours). -/
def labelCounts (ls : List String) : List (String × ℕ) :=
  ls.foldl
    (fun acc l =>
      if acc.any (fun p => p.1 = l) then
        acc.map fun p => if p.1 = l then (p.1, p.2 + 1) else p
      else acc ++ [(l, 1)])
    []

/-- The entry with the maximal count (first one on ties). -/
def maxByCount (counts : List (String × ℕ)) : Option (String × ℕ) :=
  counts.foldl
    (fun best p =>
      match best with
      | none => some p
      | some q => if q.2 < p.2 then some p else some q)
    none

/-- `GestureClassifier.predict`: `(None, 0.0)` when the training set is
empty or feature extraction fails; otherwise a k-nearest-neighbour vote
with `k = min(5, N)`, confidence `votes/k`, halved when the mean
neighbour distance indicates an out-of-distribution query (rendered on
squared distances, see the module comment). -/
def predict (td : TrainingData) (hands_data : List Hand) : Option String × ℚ :=
  if td.features = [] then (none, 0)
  else
    match extract_features hands_data with
    | none => (none, 0)
    | some features =>
      let distances := td.features.map fun tf => sqDistVec tf features
      let k := min 5 distances.length
      let nearest_indices := (argsortByKey (fun i => distances.getD i 0) distances.length).take k
      let nearest_labels := nearest_indices.map fun i => td.labels.getD i ""
      let nearest_distances := nearest_indices.map fun i => distances.getD i 0
      match maxByCount (labelCounts nearest_labels) with
      | none => (none, 0)
      | some best =>
        let confidence : ℚ := (best.2 : ℚ) / (k : ℚ)
        let avg_distanceSq := nearest_distances.sum / (k : ℚ)
        let confidence := if avg_distanceSq > 1/4 then confidence * (1/2) else confidence
        (some best.1, confidence)

/-- `ClashEmoteApp.detect_emote_rule_based`: the hand-geometry fallback
over the first two hands; `None` with fewer than two hands. -/
def detect_emote_rule_based (hands_data : List Hand) : Option String :=
  if hands_data.length < 2 then none
  else
    match hands_data with
    | hand1 :: hand2 :: _ =>
      let h1_center_y := ((lmGet hand1 0).y + (lmGet hand1 9).y) / 2
      let h2_center_y := ((lmGet hand2 0).y + (lmGet hand2 9).y) / 2
      let h1_center_x := ((lmGet hand1 0).x + (lmGet hand1 9).x) / 2
      let h2_center_x := ((lmGet hand2 0).x + (lmGet hand2 9).x) / 2
      let h1_closed := is_hand_closed hand1
      let h2_closed := is_hand_closed hand2
      if h1_closed ∧ h2_closed ∧ h1_center_y < 45/100 ∧ h2_center_y < 45/100 then
        some "GOBLIN"
      else if ¬h1_closed ∧ ¬h2_closed ∧ 3/10 < |h1_center_x - h2_center_x| then
        some "WIZARD"
      else
        let princess (hand : Hand) : Bool :=
          let center_x := ((lmGet hand 0).x + (lmGet hand 9).x) / 2
          let center_y := ((lmGet hand 0).y + (lmGet hand 9).y) / 2
          3/10 < center_x ∧ center_x < 7/10 ∧ 25/100 < center_y ∧ center_y < 1/2 ∧
            ¬is_hand_closed hand
        if princess hand1 then some "PRINCESS"
        else if princess hand2 then some "PRINCESS"
        else none
    | _ => none

/-- Emote-pipeline state of `ClashEmoteApp`: the last trigger time and
the bounded detection history (`deque(maxlen=10)`). -/
structure EmoteState where
  last_emote_time : ℚ := 0
  emote_detection_history : List (Option String) := []
deriving Repr, DecidableEq

/-- `ClashEmoteApp.process_emote`: gate on the 2-second cooldown, try
the KNN prediction (accepted only at confidence ≥ 0.6), fall back to the
rule-based detector, and trigger immediately on any detection (the
returned emote is the one-shot trigger event whose keys
`trigger_emote` presses). -/
def process_emote (td : TrainingData) (s : EmoteState) (hands_data : List Hand)
    (now : ℚ) : EmoteState × Option String :=
  if now - s.last_emote_time < 2 then (s, none)
  else
    let emote : Option String :=
      if td.features ≠ [] then
        let (e, confidence) := predict td hands_data
        if confidence < 3/5 then none else e
      else none
    let emote := if emote = none then detect_emote_rule_based hands_data else emote
    match emote with
    | none =>
      ({ s with emote_detection_history := dequePush 10 s.emote_detection_history none },
       none)
    | some e =>
      ({ last_emote_time := now,
         emote_detection_history := dequePush 10 s.emote_detection_history (some e) },
       some e)

end ClashController

section AppLoop
/-!
## `clash_controller.py` — `ClashEmoteApp.run`, one loop iteration

The per-frame body of the main loop, restricted to the decision
pipeline: mode arbitration with the 0.5-second two-hand debounce, the
emote branch, and the single-hand cursor branch.  UI drawing, keyboard
shortcuts and training-mode capture are outside the embedding (the
traces below have `training_mode` off).  A frame supplies the detected
hands, the current wall-clock time, the OS pointer position and whether
the injection layer raises the fail-safe this frame.
-/

/-- One frame of input to the main loop. -/
structure AppFrame where
  hands_data : List Hand
  now : ℚ
  cur_x : ℤ := 0
  cur_y : ℤ := 0
  failsafe : Bool := false
deriving Repr

/-- State threaded through the main loop: the mode flag, the two-hand
debounce timer (`0` is the source's sentinel for "unset"), the emote
pipeline state and the mouse controller state. -/
structure AppState where
  emote_mode : Bool
  last_two_hand_check_time : ℚ
  emote : EmoteState
  mouse : MouseState
deriving Repr

/-- Result of one loop iteration: successor state, pointer commands
issued this frame, the triggered emote (if any), and whether the frame
ended with a fail-safe abort of the cursor branch. -/
structure AppStepResult where
  state : AppState
  events : List MouseEvent
  triggered_emote : Option String
  aborted : Bool
deriving Repr

/-- The emote-mode activation debounce of `ClashEmoteApp.run` (lines
400–426): while in mouse mode, two or more hands start the 0.5-second
countdown (timer unset is the sentinel `0`); once 0.5 s have passed
with the timer still set, the mode flips and `controller.cleanup()`
force-releases any held button; any frame with fewer than two hands
resets the timer. -/
def activation_step (s : AppState) (num_hands : ℕ) (now : ℚ) :
    AppState × List MouseEvent :=
  if ¬s.emote_mode then
    if 2 ≤ num_hands then
      if s.last_two_hand_check_time = 0 then
        ({ s with last_two_hand_check_time := now }, ([] : List MouseEvent))
      else if 1/2 ≤ now - s.last_two_hand_check_time then
        let (m, evs) := cleanup s.mouse
        ({ s with emote_mode := true, last_two_hand_check_time := 0, mouse := m }, evs)
      else (s, [])
    else ({ s with last_two_hand_check_time := 0 }, [])
  else (s, [])

/-- One iteration of `ClashEmoteApp.run` (lines 387–460): the emote-mode
activation debounce, then the emote branch (which can run in the very
frame that activated it), then the single-hand cursor branch
(`controller.update`, i.e. `move_cursor` followed by `handle_click`;
`handle_click` is skipped when the fail-safe aborts the move).  The
source re-checks `num_hands >= 2` inside a branch already guarded by
it, a tautology omitted here. -/
def app_step (td : TrainingData) (cfg : MouseConfig) (s : AppState)
    (f : AppFrame) : AppStepResult :=
  let num_hands := f.hands_data.length
  let (s, transition_events) := activation_step s num_hands f.now
  if s.emote_mode then
    if 2 ≤ num_hands then
      let (es, triggered) := process_emote td s.emote f.hands_data f.now
      let s := { s with emote := es,
                        emote_mode := if triggered.isSome then false else s.emote_mode }
      { state := s, events := transition_events, triggered_emote := triggered,
        aborted := false }
    else
      { state := { s with emote_mode := false }, events := transition_events,
        triggered_emote := none, aborted := false }
  else if num_hands = 1 then
    let landmarks := f.hands_data.getD 0 []
    let wrist := lmGet landmarks 0
    let gesture := if is_hand_closed landmarks then "closed" else "open"
    let (m, move_events, aborted) :=
      move_cursor cfg s.mouse wrist.x wrist.y f.cur_x f.cur_y f.failsafe
    if aborted then
      { state := { s with mouse := m }, events := transition_events ++ move_events,
        triggered_emote := none, aborted := true }
    else
      let (m, click_events, _) := handle_click cfg m gesture f.cur_x f.cur_y f.now
      { state := { s with mouse := m },
        events := transition_events ++ move_events ++ click_events,
        triggered_emote := none, aborted := false }
  else
    { state := s, events := transition_events, triggered_emote := none,
      aborted := false }

end AppLoop

section UltimateMatcher
/-!
## `ultimate_emote_matcher.py` — `UltimateEmoteMatcher.match_emote`

The hold-time/cooldown trigger machine (lines 272–308 of the source),
operating on the label/confidence stream produced by
`smooth_prediction`: each frame supplies the smoothed emote name, its
confidence, and `time.time()`.  The source keeps `current_match` and
`match_start_time` as two fields that are always set and cleared
together (`match_start_time` is meaningful exactly when `current_match`
is not `None`); the embedding keeps `match_start_time` as a plain
rational carrying that convention.
-/

/-- Constructor parameters of `UltimateEmoteMatcher` that gate the
trigger machine. -/
structure MatchConfig where
  confidence_threshold : ℚ := 3/4
  match_hold_time : ℚ := 3/2
  trigger_cooldown : ℚ := 2
deriving Repr

/-- The match-tracking state (`current_match`, `match_start_time`,
`last_trigger_time`; the latter initialized to `0`). -/
structure MatchState where
  current_match : Option String := none
  match_start_time : ℚ := 0
  last_trigger_time : ℚ := 0
deriving Repr, DecidableEq

/-- One smoothed frame fed to the trigger machine. -/
structure MatchFrame where
  emote : String
  confidence : ℚ
  now : ℚ
deriving Repr

/-- The per-frame observable part of `match_emote`'s result. -/
structure MatchResult where
  matched : Option String
  triggered : Bool
  hold_progress : ℚ
deriving Repr, DecidableEq

/-- The hold/trigger step of `UltimateEmoteMatcher.match_emote`: a
confident non-neutral label continues (or restarts) the candidate; a
trigger fires iff the candidate has been held for `match_hold_time` and
strictly more than `trigger_cooldown` has passed since the last trigger;
firing records the trigger time but leaves `match_start_time` as it
was. -/
def match_step (cfg : MatchConfig) (s : MatchState) (f : MatchFrame) :
    MatchState × MatchResult :=
  if cfg.confidence_threshold ≤ f.confidence ∧ f.emote ≠ "None/Neutral" then
    if s.current_match = some f.emote then
      let elapsed := f.now - s.match_start_time
      let hold_progress := min 1 (elapsed / cfg.match_hold_time)
      if cfg.match_hold_time ≤ elapsed ∧ cfg.trigger_cooldown < f.now - s.last_trigger_time then
        ({ s with last_trigger_time := f.now },
         { matched := some f.emote, triggered := true, hold_progress := hold_progress })
      else
        (s, { matched := some f.emote, triggered := false, hold_progress := hold_progress })
    else
      ({ s with current_match := some f.emote, match_start_time := f.now },
       { matched := some f.emote, triggered := false, hold_progress := 0 })
  else
    ({ s with current_match := none },
     { matched := none, triggered := false, hold_progress := 0 })

/-- Folding the trigger machine over a list of smoothed frames. -/
def match_run (cfg : MatchConfig) (s : MatchState) (frames : List MatchFrame) :
    MatchState :=
  frames.foldl (fun s f => (match_step cfg s f).1) s

/-- The trigger events produced along a trace: the labels of the frames
whose step fired. -/
def match_triggers (cfg : MatchConfig) (s : MatchState) :
    List MatchFrame → List String
  | [] => []
  | f :: rest =>
    let (s', r) := match_step cfg s f
    (if r.triggered then [f.emote] else []) ++ match_triggers cfg s' rest

end UltimateMatcher

section AppTraces
/-!
Trace runners for the main-loop embedding, used by the mode-debounce
claims: the final state after a list of frames, and the list of frames
at which the mode flipped from cursor control to emote mode.
-/

/-- Folding `app_step` over a trace of frames. -/
def app_run (td : TrainingData) (cfg : MouseConfig) (s : AppState)
    (frames : List AppFrame) : AppState :=
  frames.foldl (fun s f => (app_step td cfg s f).state) s

/-- The (0-based) positions in the trace at which a cursor-to-emote
transition happened, i.e. `emote_mode` was false entering the frame and
the activation debounce flipped it.  The activation outcome is read off
`last_two_hand_check_time = 0` together with the branch conditions, so
it is recomputed here exactly as in `app_step`. -/
def app_transitions (td : TrainingData) (cfg : MouseConfig) (s : AppState) :
    List AppFrame → List ℕ
  | [] => []
  | f :: rest =>
    let flipped := ¬s.emote_mode ∧ 2 ≤ f.hands_data.length ∧
      s.last_two_hand_check_time ≠ 0 ∧ 1/2 ≤ f.now - s.last_two_hand_check_time
    let s' := (app_step td cfg s f).state
    (if flipped then [0] else []) ++
      (app_transitions td cfg s' rest).map (· + 1)

end AppTraces

section SpecSide
/-!
Spec-side rendering of the coordinate remap, written from the spec's
words for comparison with the source's `map_to_screen` (refinement): the
spec remaps one axis by `effective = clamp((raw − zoneMin) / (zoneMax −
zoneMin), 0, 1)`, scales to the screen dimension (an integer pixel
coordinate, hence the floor), then clamps into `[margin, dim −
margin]`.
-/

/-- `effective = clamp((raw − zoneMin) / (zoneMax − zoneMin), 0, 1)`,
as the spec writes it. -/
def spec_effective (zoneMin zoneMax raw : ℚ) : ℚ :=
  clampQ 0 1 ((raw - zoneMin) / (zoneMax - zoneMin))

/-- Spec-side single-axis map: scale the effective coordinate to the
screen dimension and clamp into `[margin, dim − margin]`. -/
def spec_map_axis (zoneMin zoneMax : ℚ) (dim margin : ℤ) (raw : ℚ) : ℤ :=
  max margin (min ⌊spec_effective zoneMin zoneMax raw * (dim : ℚ)⌋ (dim - margin))

end SpecSide

section ConcreteData
/-!
Concrete inputs used by the counterexamples and witnesses: fully
specified 21-landmark hands and small frame traces.
-/

/-- A closed fist held high (center height 0.4): the four fingertips
(indices 8, 12, 16, 20) sit below their PIP joints, so all four
tip/PIP pairs satisfy the closed test, and the rule-based detector sees
a GOBLIN pose when two of these are shown. -/
def goblinHand : Hand :=
  [⟨1/2, 2/5⟩, ⟨1/2, 2/5⟩, ⟨1/2, 2/5⟩, ⟨1/2, 2/5⟩, ⟨1/2, 2/5⟩,
   ⟨1/2, 2/5⟩, ⟨1/2, 2/5⟩, ⟨1/2, 2/5⟩, ⟨1/2, 45/100⟩, ⟨1/2, 2/5⟩,
   ⟨1/2, 2/5⟩, ⟨1/2, 2/5⟩, ⟨1/2, 45/100⟩, ⟨1/2, 2/5⟩, ⟨1/2, 2/5⟩,
   ⟨1/2, 2/5⟩, ⟨1/2, 45/100⟩, ⟨1/2, 2/5⟩, ⟨1/2, 2/5⟩, ⟨1/2, 2/5⟩,
   ⟨1/2, 45/100⟩]

/-- An open hand held low (center height 0.6): all four fingertips
well above their PIP joints, matching none of the rule-based emote
poses. -/
def neutralHand : Hand :=
  [⟨1/2, 3/5⟩, ⟨1/2, 3/5⟩, ⟨1/2, 3/5⟩, ⟨1/2, 3/5⟩, ⟨1/2, 3/5⟩,
   ⟨1/2, 3/5⟩, ⟨1/2, 3/5⟩, ⟨1/2, 3/5⟩, ⟨1/2, 1/2⟩, ⟨1/2, 3/5⟩,
   ⟨1/2, 3/5⟩, ⟨1/2, 3/5⟩, ⟨1/2, 1/2⟩, ⟨1/2, 3/5⟩, ⟨1/2, 3/5⟩,
   ⟨1/2, 3/5⟩, ⟨1/2, 1/2⟩, ⟨1/2, 3/5⟩, ⟨1/2, 3/5⟩, ⟨1/2, 3/5⟩,
   ⟨1/2, 1/2⟩]

/-- A hand with exactly the index finger extended (tip-y 0.30 against
PIP-y 0.40), the other three fingers and the thumb not extended: three
of the four non-thumb fingers are not extended. -/
def openIndexHand : Hand :=
  [⟨1/2, 2/5⟩, ⟨1/2, 2/5⟩, ⟨1/2, 2/5⟩, ⟨1/2, 2/5⟩, ⟨45/100, 2/5⟩,
   ⟨1/2, 2/5⟩, ⟨1/2, 2/5⟩, ⟨1/2, 2/5⟩, ⟨45/100, 3/10⟩, ⟨1/2, 2/5⟩,
   ⟨1/2, 2/5⟩, ⟨1/2, 2/5⟩, ⟨1/2, 45/100⟩, ⟨1/2, 2/5⟩, ⟨1/2, 2/5⟩,
   ⟨1/2, 2/5⟩, ⟨1/2, 45/100⟩, ⟨1/2, 2/5⟩, ⟨1/2, 2/5⟩, ⟨1/2, 2/5⟩,
   ⟨1/2, 45/100⟩]

/-- An empty training set (`training_data` before any capture). -/
def emptyTraining : TrainingData := ⟨[], []⟩

/-- `MouseController.__init__`'s mutable-state defaults: cursor at the
screen center, no click/drag in progress. -/
def mouse_init (cfg : MouseConfig) : MouseState :=
  { smooth_x := ((cfg.screen_width / 2 : ℤ) : ℚ)
    smooth_y := ((cfg.screen_height / 2 : ℤ) : ℚ)
    last_click_time := 0
    previous_gesture := "open"
    is_clicking := false
    is_dragging := false
    drag_start_x := 0
    drag_start_y := 0
    drag_start_time := 0 }

/-- `ClashEmoteApp.__init__`'s loop state: mouse mode, debounce timer
unset, emote pipeline idle. -/
def app_init (cfg : MouseConfig) : AppState :=
  { emote_mode := false
    last_two_hand_check_time := 0
    emote := {}
    mouse := mouse_init cfg }

/-- Default frame used by positional lookups in trace statements. -/
def dfltFrame : AppFrame := { hands_data := [], now := 0 }

/-- Default smoothed frame used by positional lookups. -/
def dfltMFrame : MatchFrame := ⟨"", 0, 0⟩

/-- A one-frame prefix: label `"A"` at confidence 0.8 at time 1. -/
def c1pre : List MatchFrame := [⟨"A", 4/5, 1⟩]

/-- The same label still held at time 2.6. -/
def c1f : MatchFrame := ⟨"A", 4/5, 26/10⟩

/-- The same label held continuously from time 1 to time 4.7 at
confidence 0.8. -/
def heldTrace : List MatchFrame :=
  [⟨"A", 4/5, 1⟩, ⟨"A", 4/5, 26/10⟩, ⟨"A", 4/5, 47/10⟩]

/-- The mode-debounce trace of the spec's test: two hands for 0.49 s,
one frame with a single hand, then two hands again. -/
def debounceResetTrace : List AppFrame :=
  [ { hands_data := [neutralHand, neutralHand], now := 1 }
  , { hands_data := [neutralHand, neutralHand], now := 149/100 }
  , { hands_data := [neutralHand], now := 3/2 }
  , { hands_data := [neutralHand, neutralHand], now := 152/100 }
  , { hands_data := [neutralHand, neutralHand], now := 155/100 } ]

/-- Two hands continuously for 1.2 s of trace time: the debounce fires
at the 0.5 s mark (frame index 3) and never again. -/
def debounceFireTrace : List AppFrame :=
  [ { hands_data := [neutralHand, neutralHand], now := 1 }
  , { hands_data := [neutralHand, neutralHand], now := 12/10 }
  , { hands_data := [neutralHand, neutralHand], now := 14/10 }
  , { hands_data := [neutralHand, neutralHand], now := 3/2 }
  , { hands_data := [neutralHand, neutralHand], now := 16/10 }
  , { hands_data := [neutralHand, neutralHand], now := 22/10 } ]

/-- The configuration of the spec's tracking-zone test: zone
`[0.1, 0.9]`, a 1000-pixel screen, no margin. -/
def zone10cfg : MouseConfig :=
  { tracking_zone_min := 1/10, tracking_zone_max := 9/10,
    screen_width := 1000, screen_height := 1000, screen_margin := 0 }

/-- The mouse state after the single-hand frame of the debounce-reset
trace: the cursor smoothed toward the mapped neutral-hand position. -/
def dbM3 : MouseState :=
  { smooth_x := 960, smooth_y := 2931/5, last_click_time := 0,
    previous_gesture := "open", is_clicking := false, is_dragging := false,
    drag_start_x := 0, drag_start_y := 0, drag_start_time := 0 }

/-- Loop state at session start but with a drag in progress (pointer
button held). -/
def dragS0 : AppState :=
  { emote_mode := false, last_two_hand_check_time := 0, emote := {},
    mouse := { mouse_init {} with is_dragging := true } }

/-- A one-frame prefix for the mode-debounce witness: two hands at
time 1. -/
def c3pre : List AppFrame := [{ hands_data := [neutralHand, neutralHand], now := 1 }]

/-- The debounce-expiry frame for the mode-debounce witness: two hands
at time 1.5. -/
def c3f : AppFrame := { hands_data := [neutralHand, neutralHand], now := 3/2 }

/-- Loop state with the debounce countdown started at time 1. -/
def dbS1 : AppState :=
  { emote_mode := false, last_two_hand_check_time := 1, emote := {},
    mouse := mouse_init {} }

/-- Loop state after the single-hand reset frame. -/
def dbS3 : AppState :=
  { emote_mode := false, last_two_hand_check_time := 0, emote := {}, mouse := dbM3 }

/-- Loop state with the countdown restarted at time 1.52. -/
def dbS4 : AppState :=
  { emote_mode := false, last_two_hand_check_time := 152/100, emote := {},
    mouse := dbM3 }

/-- Loop state right after the debounce fired (emote mode, timer
cleared). -/
def fireS4 : AppState :=
  { emote_mode := true, last_two_hand_check_time := 0, emote := {},
    mouse := mouse_init {} }

/-- Emote-mode loop state after one no-detection emote check past the
cooldown. -/
def fireS6 : AppState :=
  { emote_mode := true, last_two_hand_check_time := 0,
    emote := { last_emote_time := 0, emote_detection_history := [none] },
    mouse := mouse_init {} }

end ConcreteData

section Invariants
/-!
Trace invariants for the two debounced state machines: while a
candidate (or a pending debounce timer) is set, its start time is the
timestamp of an earlier frame from which the enabling condition has
held on every processed frame.
-/

/-- Invariant of the hold/trigger machine along a processed prefix:
whenever a candidate label is set, `match_start_time` is the timestamp
of some processed frame since which every frame carried that label at
or above the confidence threshold. -/
def match_inv (cfg : MatchConfig) (s : MatchState) (pre : List MatchFrame) : Prop :=
  ∀ L, s.current_match = some L →
    L ≠ "None/Neutral" ∧
    ∃ j, j < pre.length ∧ (pre.getD j dfltMFrame).now = s.match_start_time ∧
      ∀ m, j ≤ m → m < pre.length →
        cfg.confidence_threshold ≤ (pre.getD m dfltMFrame).confidence ∧
        (pre.getD m dfltMFrame).emote = L

/-- Invariant of the main-loop mode debounce along a processed prefix:
in emote mode the timer is cleared, and in mouse mode a set timer is
the timestamp of some processed frame since which every frame showed at
least two hands. -/
def app_inv (s : AppState) (pre : List AppFrame) : Prop :=
  (s.emote_mode = true → s.last_two_hand_check_time = 0) ∧
  (s.emote_mode = false → s.last_two_hand_check_time ≠ 0 →
    ∃ j, j < pre.length ∧
      (pre.getD j dfltFrame).now = s.last_two_hand_check_time ∧
      ∀ m, j ≤ m → m < pre.length →
        2 ≤ ((pre.getD m dfltFrame).hands_data).length)

end Invariants

/-! ## Helper lemmas -/

theorem activation_emote (s : AppState) (n : ℕ) (now : ℚ)
    (hs : s.emote_mode = true) : activation_step s n now = (s, []) := by
  simp [activation_step, hs]

theorem activation_few (s : AppState) (n : ℕ) (now : ℚ)
    (hs : s.emote_mode = false) (hn : ¬2 ≤ n) :
    activation_step s n now = ({ s with last_two_hand_check_time := 0 }, []) := by
  simp [activation_step, hs, hn]

theorem activation_start (s : AppState) (n : ℕ) (now : ℚ)
    (hs : s.emote_mode = false) (hn : 2 ≤ n) (ht : s.last_two_hand_check_time = 0) :
    activation_step s n now = ({ s with last_two_hand_check_time := now }, []) := by
  simp [activation_step, hs, hn, ht]

theorem activation_fire (s : AppState) (n : ℕ) (now : ℚ)
    (hs : s.emote_mode = false) (hn : 2 ≤ n) (ht : s.last_two_hand_check_time ≠ 0)
    (he : 1/2 ≤ now - s.last_two_hand_check_time) :
    activation_step s n now =
      ({ s with emote_mode := true, last_two_hand_check_time := 0,
                mouse := (cleanup s.mouse).1 }, (cleanup s.mouse).2) := by
  have h1 : ¬(s.emote_mode = true) := by simp [hs]
  unfold activation_step
  rw [if_pos h1, if_pos hn, if_neg ht, if_pos he]

theorem activation_wait (s : AppState) (n : ℕ) (now : ℚ)
    (hs : s.emote_mode = false) (hn : 2 ≤ n) (ht : s.last_two_hand_check_time ≠ 0)
    (he : ¬1/2 ≤ now - s.last_two_hand_check_time) :
    activation_step s n now = (s, []) := by
  have h1 : ¬(s.emote_mode = true) := by simp [hs]
  unfold activation_step
  rw [if_pos h1, if_pos hn, if_neg ht, if_neg he]

theorem app_step_timer (td : TrainingData) (cfg : MouseConfig) (s : AppState)
    (f : AppFrame) :
    (app_step td cfg s f).state.last_two_hand_check_time =
      (activation_step s f.hands_data.length f.now).1.last_two_hand_check_time := by
  rcases h : activation_step s f.hands_data.length f.now with ⟨s1, ev⟩
  simp only [app_step, h]
  split
  · split <;> rfl
  · split
    · split <;> rfl
    · rfl

theorem app_step_mode (td : TrainingData) (cfg : MouseConfig) (s : AppState)
    (f : AppFrame)
    (hm : (app_step td cfg s f).state.emote_mode = true) :
    (activation_step s f.hands_data.length f.now).1.emote_mode = true := by
  rcases h : activation_step s f.hands_data.length f.now with ⟨s1, ev⟩
  simp only [app_step, h] at hm
  show s1.emote_mode = true
  revert hm
  split
  · split
    · intro hm
      rcases hp : (process_emote td s1.emote f.hands_data f.now) with ⟨es, trig⟩
      rw [hp] at hm
      rcases htrig : trig.isSome with _ | _
      · rw [htrig] at hm
        simpa using hm
      · rw [htrig] at hm
        simp at hm
    · intro hm
      simp at hm
  · split
    · split <;> (intro hm; exact hm)
    · intro hm; exact hm

theorem app_step_in_emote (td : TrainingData) (cfg : MouseConfig) (s : AppState)
    (f : AppFrame)
    (hm : (activation_step s f.hands_data.length f.now).1.emote_mode = true) :
    (app_step td cfg s f).events = (activation_step s f.hands_data.length f.now).2 ∧
    (app_step td cfg s f).state.mouse =
      (activation_step s f.hands_data.length f.now).1.mouse := by
  rcases h : activation_step s f.hands_data.length f.now with ⟨s1, ev⟩
  simp only [h] at hm ⊢
  simp only [app_step, h, hm, if_true]
  refine ⟨?_, ?_⟩ <;> split <;> rfl

theorem app_inv_of_timer_zero (s : AppState) (pre : List AppFrame)
    (h : s.last_two_hand_check_time = 0) : app_inv s pre :=
  ⟨fun _ => h, fun _ hne => absurd h hne⟩

theorem move_cursor_no_failsafe (cfg : MouseConfig) (s : MouseState)
    (hx hy : ℚ) (cx cy : ℤ) :
    (move_cursor cfg s hx hy cx cy false).2.2 = false := by
  simp only [move_cursor]
  repeat' split
  all_goals simp_all

theorem app_step_start_state (td : TrainingData) (cfg : MouseConfig) (s : AppState)
    (f : AppFrame) (hs : s.emote_mode = false) (hn : 2 ≤ f.hands_data.length)
    (ht : s.last_two_hand_check_time = 0) :
    app_step td cfg s f =
      { state := { s with last_two_hand_check_time := f.now }, events := [],
        triggered_emote := none, aborted := false } := by
  have h := activation_start s f.hands_data.length f.now hs hn ht
  simp only [app_step, h]
  rw [if_neg (by simp [hs] :
    ¬({ s with last_two_hand_check_time := f.now } : AppState).emote_mode = true)]
  rw [if_neg (by omega : ¬f.hands_data.length = 1)]

theorem app_step_wait_state (td : TrainingData) (cfg : MouseConfig) (s : AppState)
    (f : AppFrame) (hs : s.emote_mode = false) (hn : 2 ≤ f.hands_data.length)
    (ht : s.last_two_hand_check_time ≠ 0)
    (he : ¬1/2 ≤ f.now - s.last_two_hand_check_time) :
    app_step td cfg s f =
      { state := s, events := [], triggered_emote := none, aborted := false } := by
  have h := activation_wait s f.hands_data.length f.now hs hn ht he
  simp only [app_step, h]
  rw [if_neg (by simp [hs] : ¬s.emote_mode = true)]
  rw [if_neg (by omega : ¬f.hands_data.length = 1)]

theorem app_step_fire_state (td : TrainingData) (cfg : MouseConfig) (s : AppState)
    (f : AppFrame) (hs : s.emote_mode = false) (hn : 2 ≤ f.hands_data.length)
    (ht : s.last_two_hand_check_time ≠ 0)
    (he : 1/2 ≤ f.now - s.last_two_hand_check_time)
    (hpn : (process_emote td s.emote f.hands_data f.now).2 = none) :
    app_step td cfg s f =
      { state :=
          { s with
              emote_mode := true,
              last_two_hand_check_time := 0,
              mouse := (cleanup s.mouse).1,
              emote := (process_emote td s.emote f.hands_data f.now).1 },
        events := (cleanup s.mouse).2, triggered_emote := none,
        aborted := false } := by
  have h := activation_fire s f.hands_data.length f.now hs hn ht he
  simp only [app_step, h]
  rw [if_pos trivial, if_pos hn]
  simp [hpn]

theorem app_step_emote_none_state (td : TrainingData) (cfg : MouseConfig)
    (s : AppState) (f : AppFrame) (hs : s.emote_mode = true)
    (hn : 2 ≤ f.hands_data.length)
    (hpn : (process_emote td s.emote f.hands_data f.now).2 = none) :
    app_step td cfg s f =
      { state := { s with emote := (process_emote td s.emote f.hands_data f.now).1 },
        events := [], triggered_emote := none, aborted := false } := by
  have h := activation_emote s f.hands_data.length f.now hs
  simp only [app_step, h]
  rw [if_pos hs, if_pos hn]
  simp [hpn, hs]

theorem app_step_cursor_noabort_state (td : TrainingData) (cfg : MouseConfig)
    (s : AppState) (f : AppFrame) (hs : s.emote_mode = false)
    (hn1 : f.hands_data.length = 1)
    (habort : (move_cursor cfg s.mouse (lmGet (f.hands_data.getD 0 []) 0).x
      (lmGet (f.hands_data.getD 0 []) 0).y f.cur_x f.cur_y f.failsafe).2.2 = false) :
    app_step td cfg s f =
      { state :=
          { s with
              last_two_hand_check_time := 0,
              mouse := (handle_click cfg
                (move_cursor cfg s.mouse (lmGet (f.hands_data.getD 0 []) 0).x
                  (lmGet (f.hands_data.getD 0 []) 0).y f.cur_x f.cur_y f.failsafe).1
                (if is_hand_closed (f.hands_data.getD 0 []) then "closed" else "open")
                f.cur_x f.cur_y f.now).1 },
        events := (move_cursor cfg s.mouse (lmGet (f.hands_data.getD 0 []) 0).x
            (lmGet (f.hands_data.getD 0 []) 0).y f.cur_x f.cur_y f.failsafe).2.1 ++
          (handle_click cfg
            (move_cursor cfg s.mouse (lmGet (f.hands_data.getD 0 []) 0).x
              (lmGet (f.hands_data.getD 0 []) 0).y f.cur_x f.cur_y f.failsafe).1
            (if is_hand_closed (f.hands_data.getD 0 []) then "closed" else "open")
            f.cur_x f.cur_y f.now).2.1,
        triggered_emote := none, aborted := false } := by
  have h := activation_few s f.hands_data.length f.now hs (by omega)
  simp only [app_step, h]
  rw [if_neg (by simp [hs] :
    ¬({ s with last_two_hand_check_time := 0 } : AppState).emote_mode = true)]
  rw [if_pos hn1]
  rcases hmv : move_cursor cfg s.mouse (lmGet (f.hands_data.getD 0 []) 0).x
      (lmGet (f.hands_data.getD 0 []) 0).y f.cur_x f.cur_y f.failsafe with ⟨m, mev, ab⟩
  rw [hmv] at habort
  simp only at habort
  rw [habort]
  rcases hck : handle_click cfg m
      (if is_hand_closed (f.hands_data.getD 0 []) then "closed" else "open")
      f.cur_x f.cur_y f.now with ⟨m2, cev, out⟩
  simp

theorem app_inv_step (td : TrainingData) (cfg : MouseConfig) (s : AppState)
    (pre : List AppFrame) (f : AppFrame) (h : app_inv s pre) :
    app_inv (app_step td cfg s f).state (pre ++ [f]) := by
  have htimer := app_step_timer td cfg s f
  cases hs : s.emote_mode with
  | true =>
    rw [activation_emote s f.hands_data.length f.now hs] at htimer
    exact app_inv_of_timer_zero _ _ (htimer.trans (h.1 hs))
  | false =>
    by_cases hn : 2 ≤ f.hands_data.length
    · by_cases ht : s.last_two_hand_check_time = 0
      · -- the countdown starts at this frame
        rw [activation_start s f.hands_data.length f.now hs hn ht] at htimer
        have hmode : (app_step td cfg s f).state.emote_mode = false := by
          cases hmode' : (app_step td cfg s f).state.emote_mode
          · rfl
          · have := app_step_mode td cfg s f hmode'
            rw [activation_start s f.hands_data.length f.now hs hn ht] at this
            rw [show ({ s with last_two_hand_check_time := f.now } :
              AppState).emote_mode = false from hs] at this
            exact this.symm
        refine ⟨fun hmt => absurd (hmode ▸ hmt) (by simp), fun _ htne => ?_⟩
        rw [htimer] at htne ⊢
        refine ⟨pre.length, by simp, ?_, ?_⟩
        · rw [List.getD_append_right _ _ _ _ (le_refl _), Nat.sub_self]
          rfl
        · intro m hjm hm'
          simp only [List.length_append, List.length_singleton] at hm'
          have hme : m = pre.length := by omega
          rw [hme, List.getD_append_right _ _ _ _ (le_refl _), Nat.sub_self]
          exact hn
      · by_cases he : 1/2 ≤ f.now - s.last_two_hand_check_time
        · -- the transition fires: the timer is reset
          rw [activation_fire s f.hands_data.length f.now hs hn ht he] at htimer
          exact app_inv_of_timer_zero _ _ htimer
        · -- countdown still running: timer and mode unchanged
          rw [activation_wait s f.hands_data.length f.now hs hn ht he] at htimer
          have hmode : (app_step td cfg s f).state.emote_mode = false := by
            cases hmode' : (app_step td cfg s f).state.emote_mode
            · rfl
            · have := app_step_mode td cfg s f hmode'
              rw [activation_wait s f.hands_data.length f.now hs hn ht he] at this
              exact (hs ▸ this).symm
          refine ⟨fun hmt => absurd (hmode ▸ hmt) (by simp), fun _ htne => ?_⟩
          rw [htimer] at htne ⊢
          obtain ⟨j, hj, hnow, hcont⟩ := h.2 hs htne
          refine ⟨j, ?_, ?_, ?_⟩
          · simp only [List.length_append, List.length_singleton]; omega
          · rw [List.getD_append _ _ _ _ hj]; exact hnow
          · intro m hjm hm'
            simp only [List.length_append, List.length_singleton] at hm'
            rcases Nat.lt_or_ge m pre.length with hlt | hge
            · rw [List.getD_append _ _ _ _ hlt]; exact hcont m hjm hlt
            · have hme : m = pre.length := by omega
              rw [hme, List.getD_append_right _ _ _ _ (le_refl _), Nat.sub_self]
              exact hn
    · -- fewer than two hands: the timer is reset
      rw [activation_few s f.hands_data.length f.now hs hn] at htimer
      exact app_inv_of_timer_zero _ _ htimer

theorem app_inv_run (td : TrainingData) (cfg : MouseConfig) (s0 : AppState)
    (h0 : s0.last_two_hand_check_time = 0) (pre : List AppFrame) :
    app_inv (app_run td cfg s0 pre) pre := by
  induction pre using List.reverseRecOn with
  | nil =>
    rw [app_run, List.foldl_nil]
    exact app_inv_of_timer_zero _ _ h0
  | append_singleton ps f ih =>
    have : app_run td cfg s0 (ps ++ [f]) = (app_step td cfg (app_run td cfg s0 ps) f).state := by
      simp [app_run, List.foldl_append]
    rw [this]
    exact app_inv_step td cfg _ ps f ih

theorem match_inv_step (cfg : MatchConfig) (s : MatchState) (pre : List MatchFrame)
    (f : MatchFrame) (h : match_inv cfg s pre) :
    match_inv cfg (match_step cfg s f).1 (pre ++ [f]) := by
  intro L hL
  by_cases hc : cfg.confidence_threshold ≤ f.confidence ∧ f.emote ≠ "None/Neutral"
  · by_cases hm : s.current_match = some f.emote
    · -- the candidate continues; `current_match` and `match_start_time`
      -- are unchanged whether or not a trigger fires
      have hcur : (match_step cfg s f).1.current_match = s.current_match ∧
          (match_step cfg s f).1.match_start_time = s.match_start_time := by
        simp only [match_step, if_pos hc, if_pos hm]
        split <;> simp
      have hLm : L = f.emote := by
        rw [hcur.1, hm] at hL; exact (Option.some_inj.mp hL).symm
      obtain ⟨hne, j, hj, hnow, hcont⟩ := h f.emote hm
      refine ⟨hLm ▸ hne, j, ?_, ?_, ?_⟩
      · simp only [List.length_append, List.length_singleton]; omega
      · rw [List.getD_append _ _ _ _ hj, hcur.2]; exact hnow
      · intro m hjm hm'
        simp only [List.length_append, List.length_singleton] at hm'
        rcases Nat.lt_or_ge m pre.length with hlt | hge
        · rw [List.getD_append _ _ _ _ hlt]
          exact hLm ▸ hcont m hjm hlt
        · have hmeq : m = pre.length := by omega
          rw [hmeq, List.getD_append_right _ _ _ _ (Nat.le_refl _), Nat.sub_self]
          exact ⟨hc.1, by simpa using hLm.symm⟩
    · -- a new candidate starts at this frame
      have hstep : (match_step cfg s f).1 =
          { s with current_match := some f.emote, match_start_time := f.now } := by
        simp only [match_step, if_pos hc, if_neg hm]
      rw [hstep] at hL
      have hLm : L = f.emote := by
        simpa using hL.symm
      refine ⟨hLm ▸ hc.2, pre.length, ?_, ?_, ?_⟩
      · simp
      · rw [List.getD_append_right _ _ _ _ (Nat.le_refl _), Nat.sub_self, hstep]
        rfl
      · intro m hjm hm'
        simp only [List.length_append, List.length_singleton] at hm'
        have hmeq : m = pre.length := by omega
        rw [hmeq, List.getD_append_right _ _ _ _ (Nat.le_refl _), Nat.sub_self]
        exact ⟨hc.1, by simpa using hLm.symm⟩
  · -- low confidence or neutral label: the candidate is cleared
    have hstep : (match_step cfg s f).1.current_match = none := by
      simp only [match_step, if_neg hc]
    rw [hstep] at hL
    exact absurd hL (by simp)

theorem match_inv_run (cfg : MatchConfig) (s0 : MatchState)
    (h0 : s0.current_match = none) (pre : List MatchFrame) :
    match_inv cfg (match_run cfg s0 pre) pre := by
  induction pre using List.reverseRecOn with
  | nil =>
    intro L hL
    rw [match_run, List.foldl_nil, h0] at hL
    exact absurd hL (by simp)
  | append_singleton ps f ih =>
    have : match_run cfg s0 (ps ++ [f]) = (match_step cfg (match_run cfg s0 ps) f).1 := by
      simp [match_run, List.foldl_append]
    rw [this]
    exact match_inv_step cfg _ ps f ih

/-! ## Claims -/

/-- C1 (amended).  For `UltimateEmoteMatcher.match_emote`, the
hold-time lower bound holds: starting from the matcher's initial state,
whenever a trigger fires at a frame, the frame's confidence is at or
above the threshold, strictly more than `trigger_cooldown` has elapsed
since the last trigger, at least `match_hold_time` has elapsed since
`match_start_time`, and there is an earlier processed frame, at least
`match_hold_time` older, since which every frame carried the same label
at or above the confidence threshold.  For
`ClashEmoteApp.process_emote`, a trigger is gated only by the 2-second
cooldown: any emitted emote implies merely that at least 2 seconds
passed since the previous one (no hold requirement — the counterexample
shows it firing on the first ever frame). -/
theorem c1_hold_time_lower_bound :
    (∀ (cfg : MatchConfig) (s0 : MatchState) (pre : List MatchFrame) (f : MatchFrame),
      s0.current_match = none →
      (match_step cfg (match_run cfg s0 pre) f).2.triggered = true →
      cfg.confidence_threshold ≤ f.confidence ∧
      cfg.trigger_cooldown < f.now - (match_run cfg s0 pre).last_trigger_time ∧
      cfg.match_hold_time ≤ f.now - (match_run cfg s0 pre).match_start_time ∧
      ∃ j, j < pre.length ∧
        cfg.match_hold_time ≤ f.now - (pre.getD j dfltMFrame).now ∧
        ∀ m, j ≤ m → m < pre.length →
          cfg.confidence_threshold ≤ (pre.getD m dfltMFrame).confidence ∧
          (pre.getD m dfltMFrame).emote = f.emote) ∧
    (∀ (td : TrainingData) (s : EmoteState) (hands_data : List Hand) (now : ℚ)
      (e : String),
      (process_emote td s hands_data now).2 = some e → 2 ≤ now - s.last_emote_time) := by
  constructor
  · intro cfg s0 pre f h0 htr
    by_cases hc : cfg.confidence_threshold ≤ f.confidence ∧ f.emote ≠ "None/Neutral"
    · by_cases hm : (match_run cfg s0 pre).current_match = some f.emote
      · by_cases ht :
          cfg.match_hold_time ≤ f.now - (match_run cfg s0 pre).match_start_time ∧
          cfg.trigger_cooldown < f.now - (match_run cfg s0 pre).last_trigger_time
        · obtain ⟨-, j, hj, hnow, hcont⟩ := match_inv_run cfg s0 h0 pre f.emote hm
          exact ⟨hc.1, ht.2, ht.1, j, hj, by rw [hnow]; exact ht.1, hcont⟩
        · rw [show (match_step cfg (match_run cfg s0 pre) f).2.triggered = false by
            simp only [match_step, if_pos hc, if_pos hm, if_neg ht]] at htr
          exact absurd htr (by simp)
      · rw [show (match_step cfg (match_run cfg s0 pre) f).2.triggered = false by
          simp only [match_step, if_pos hc, if_neg hm]] at htr
        exact absurd htr (by simp)
    · rw [show (match_step cfg (match_run cfg s0 pre) f).2.triggered = false by
        simp only [match_step, if_neg hc]] at htr
      exact absurd htr (by simp)
  · intro td s hands_data now e h
    by_cases h2 : now - s.last_emote_time < 2
    · rw [show (process_emote td s hands_data now).2 = none by
        simp only [process_emote, if_pos h2]] at h
      exact absurd h (by simp)
    · linarith [not_lt.mp h2]

/-- C1 witness: with the default configuration, label `"A"` at
confidence 0.8 becomes the candidate at time 1 and triggers at time
2.6; the theorem's hypotheses hold there and its conclusion follows. -/
theorem c1_hold_time_lower_bound_witness :
    ({} : MatchState).current_match = none ∧
    (match_step {} (match_run {} {} c1pre) c1f).2.triggered = true ∧
    (({} : MatchConfig).confidence_threshold ≤ c1f.confidence ∧
      ({} : MatchConfig).trigger_cooldown <
        c1f.now - (match_run {} {} c1pre).last_trigger_time ∧
      ({} : MatchConfig).match_hold_time ≤
        c1f.now - (match_run {} {} c1pre).match_start_time ∧
      ∃ j, j < c1pre.length ∧
        ({} : MatchConfig).match_hold_time ≤ c1f.now - (c1pre.getD j dfltMFrame).now ∧
        ∀ m, j ≤ m → m < c1pre.length →
          ({} : MatchConfig).confidence_threshold ≤ (c1pre.getD m dfltMFrame).confidence ∧
          (c1pre.getD m dfltMFrame).emote = c1f.emote) := by
  have h0 : ({} : MatchState).current_match = none := rfl
  have htr : (match_step {} (match_run {} {} c1pre) c1f).2.triggered = true := by
    simp only [c1pre, c1f, match_run, List.foldl_cons, List.foldl_nil, match_step]
    norm_num
    simp
    norm_num
  exact ⟨h0, htr, c1_hold_time_lower_bound.1 {} {} c1pre c1f h0 htr⟩

/-- C4 (amended).  After a trigger fires for a label, holding that same
label refires as soon as strictly more than `trigger_cooldown` has
elapsed since the last trigger: firing leaves `match_start_time`
untouched, so the hold condition stays satisfied and no re-accumulation
of hold time (nor a label change) is required for the next trigger. -/
theorem c4_refire_after_cooldown (cfg : MatchConfig) (s : MatchState) (f : MatchFrame)
    (hm : s.current_match = some f.emote)
    (hne : f.emote ≠ "None/Neutral")
    (hconf : cfg.confidence_threshold ≤ f.confidence)
    (hhold : cfg.match_hold_time ≤ f.now - s.match_start_time)
    (hcd : cfg.trigger_cooldown < f.now - s.last_trigger_time) :
    (match_step cfg s f).2.triggered = true ∧
    (match_step cfg s f).1.match_start_time = s.match_start_time ∧
    (match_step cfg s f).1.current_match = some f.emote ∧
    (match_step cfg s f).1.last_trigger_time = f.now := by
  rw [show match_step cfg s f =
      ({ s with last_trigger_time := f.now },
       { matched := some f.emote, triggered := true,
         hold_progress := min 1 ((f.now - s.match_start_time) / cfg.match_hold_time) }) by
    simp only [match_step, if_pos (And.intro hconf hne), if_pos hm,
      if_pos (And.intro hhold hcd)]]
  exact ⟨rfl, rfl, hm, rfl⟩

/-- C4 witness: right after the trigger at time 2.6 of the held-label
trace, the state still has `match_start_time = 1`; at time 4.7 the
refire conditions hold and the step triggers again. -/
theorem c4_refire_after_cooldown_witness :
    ({ current_match := some "A", match_start_time := 1,
       last_trigger_time := 26/10 } : MatchState).current_match = some "A" ∧
    (match_step {}
      { current_match := some "A", match_start_time := 1, last_trigger_time := 26/10 }
      ⟨"A", 4/5, 47/10⟩).2.triggered = true := by
  refine ⟨rfl, (c4_refire_after_cooldown {} _ ⟨"A", 4/5, 47/10⟩ rfl ?_ ?_ ?_ ?_).1⟩
  · simp
  · norm_num
  · norm_num
  · norm_num

/-- C4 counterexample: with the default configuration, the label `"A"`
held continuously (confidence 0.8, frames at times 1, 2.6, 4.7)
triggers at 2.6 and again at 4.7: the smoothed label never changed away
from `"A"`, and the hold was never re-accumulated — the final
`match_start_time` is still 1, the time the label first became the
candidate — yet waiting out the cooldown alone produced a second
trigger. -/
theorem c4_refire_after_cooldown_counterexample :
    match_triggers {} {} heldTrace = ["A", "A"] ∧
    (match_run {} {} heldTrace).match_start_time = 1 := by
  constructor
  · simp only [heldTrace, match_triggers, match_step]
    norm_num
    simp
    norm_num
  · simp only [heldTrace, match_run, List.foldl_cons, List.foldl_nil, match_step]
    norm_num
    simp
    norm_num

/-- C2.  On the closed-to-open transition while a press is held
(`is_dragging`), `handle_click` issues exactly one release, clears
`is_dragging`, sets `last_click_time` to the current time, and
classifies the action as a click iff the pointer moved strictly less
than 10 px from the press position and the press lasted strictly less
than `min_drag_time` (0.15 s in the source), otherwise as a drag; the
strict inequalities put both boundary values (distance exactly 10 px,
duration exactly 0.15 s) on the drag side. -/
theorem c2_click_drag_disambiguation (cfg : MouseConfig) (s : MouseState)
    (cur_x cur_y : ℤ) (now : ℚ)
    (hprev : s.previous_gesture = "closed") (hdrag : s.is_dragging = true)
    (hmin : cfg.min_drag_time = 15/100) :
    (handle_click cfg s "open" cur_x cur_y now).2.1 = [MouseEvent.release] ∧
    (handle_click cfg s "open" cur_x cur_y now).1.is_dragging = false ∧
    (handle_click cfg s "open" cur_x cur_y now).1.last_click_time = now ∧
    ((handle_click cfg s "open" cur_x cur_y now).2.2 = ClickOutcome.click ↔
      sqDist s.drag_start_x s.drag_start_y (cur_x : ℚ) (cur_y : ℚ) < 10 ^ 2 ∧
      now - s.drag_start_time < 15/100) ∧
    ((handle_click cfg s "open" cur_x cur_y now).2.2 = ClickOutcome.click ∨
      (handle_click cfg s "open" cur_x cur_y now).2.2 = ClickOutcome.dragEnded) := by
  have h1 : ¬(("open" : String) = "closed" ∧ s.previous_gesture = "open") := by
    simp
  have h2 : ("open" : String) = "open" ∧ s.previous_gesture = "closed" := ⟨rfl, hprev⟩
  by_cases hcls :
      sqDist s.drag_start_x s.drag_start_y (cur_x : ℚ) (cur_y : ℚ) < 10 ^ 2 ∧
      now - s.drag_start_time < cfg.min_drag_time
  · rw [show handle_click cfg s "open" cur_x cur_y now =
        ({ s with is_dragging := false, last_click_time := now, is_clicking := false,
                  previous_gesture := "open" },
         [MouseEvent.release], ClickOutcome.click) by
      simp only [handle_click, if_neg h1, if_pos h2, hdrag, if_pos hcls]
      simp [hprev]]
    refine ⟨rfl, rfl, rfl, ?_, Or.inl rfl⟩
    simp only [true_iff]
    exact ⟨hcls.1, hmin ▸ hcls.2⟩
  · rw [show handle_click cfg s "open" cur_x cur_y now =
        ({ s with is_dragging := false, last_click_time := now, is_clicking := false,
                  previous_gesture := "open" },
         [MouseEvent.release], ClickOutcome.dragEnded) by
      simp only [handle_click, if_neg h1, if_pos h2, hdrag, if_neg hcls]
      simp [hprev]]
    refine ⟨rfl, rfl, rfl, ?_, Or.inr rfl⟩
    simp only [iff_false_intro (by simp : ClickOutcome.dragEnded ≠ ClickOutcome.click),
      false_iff]
    exact fun h => hcls ⟨h.1, hmin ▸ h.2⟩

/-- C2 witness, at a boundary input: press at (0,0) at time 0, release
at (10,0) at time 0.1 — distance exactly 10 px — classifies as a drag,
with one release issued, `is_dragging` cleared and `last_click_time`
updated. -/
theorem c2_click_drag_disambiguation_witness :
    (handle_click {}
        { smooth_x := 0, smooth_y := 0, last_click_time := 0,
          previous_gesture := "closed", is_clicking := true, is_dragging := true,
          drag_start_x := 0, drag_start_y := 0, drag_start_time := 0 }
        "open" 10 0 (1/10)).2.1 = [MouseEvent.release] ∧
    (handle_click {}
        { smooth_x := 0, smooth_y := 0, last_click_time := 0,
          previous_gesture := "closed", is_clicking := true, is_dragging := true,
          drag_start_x := 0, drag_start_y := 0, drag_start_time := 0 }
        "open" 10 0 (1/10)).2.2 = ClickOutcome.dragEnded := by
  have h := c2_click_drag_disambiguation {}
    { smooth_x := 0, smooth_y := 0, last_click_time := 0,
      previous_gesture := "closed", is_clicking := true, is_dragging := true,
      drag_start_x := 0, drag_start_y := 0, drag_start_time := 0 }
    10 0 (1/10) rfl rfl rfl
  refine ⟨h.1, ?_⟩
  rcases h.2.2.2.2 with hc | hd
  · exact absurd (h.2.2.2.1.mp hc) (by simp [sqDist])
  · exact hd

/-- C5 (amended).  The two geometric classifiers differ from the
claimed "closed iff ≥3 of 4 not extended" rule.
`ClashEmoteApp.is_hand_closed` counts a finger toward closedness by the
strict test `tip-y > pip-y − 0.02`; away from the exact margin boundary
this coincides with "not extended" (the negation of `tip-y < pip-y −
0.02`), so there `closed ⟺ at least 3 of 4 not extended`.
`GestureRecognizer.detect_gesture` instead returns `"closed"` iff *no*
finger is extended: all four non-thumb fingers fail `tip-y < pip-y −
0.02` and the thumb fails `tip-x > pip-x − 0.01`; three of four not
extended is not sufficient there. -/
theorem c5_geometric_classifier :
    (∀ lm : Hand,
      (∀ p ∈ finger_pairs, (lmGet lm p.1).y ≠ (lmGet lm p.2).y - 2/100) →
      (is_hand_closed lm = true ↔
        3 ≤ (finger_pairs.filter fun p => !is_finger_extended lm p.1 p.2).length)) ∧
    (∀ (s : RecognizerState) (lm : Hand), 21 ≤ lm.length →
      (detect_gesture s (some lm) = "closed" ↔
        (∀ p ∈ finger_pairs, is_finger_extended lm p.1 p.2 = false) ∧
        is_thumb_extended lm 4 2 = false)) := by
  constructor
  · intro lm hne
    have hlist :
        finger_pairs.filter
          (fun p => decide ((lmGet lm p.1).y > (lmGet lm p.2).y - 2/100)) =
        finger_pairs.filter (fun p => !is_finger_extended lm p.1 p.2) := by
      apply List.filter_congr
      intro p hp
      have h := hne p hp
      by_cases hlt : (lmGet lm p.1).y < (lmGet lm p.2).y - 2/100
      · simp [is_finger_extended, hlt, asymm hlt]
      · have hgt : (lmGet lm p.1).y > (lmGet lm p.2).y - 2/100 :=
          lt_of_le_of_ne (not_lt.mp hlt) h.symm
        simp [is_finger_extended, hgt, hlt]
    simp only [is_hand_closed, decide_eq_true_eq]
    rw [hlist]
  · intro s lm hlen
    have hnotshort : ¬lm.length < 21 := by omega
    simp only [detect_gesture, if_neg hnotshort, finger_pairs]
    cases h1 : is_finger_extended lm 8 6 <;>
      cases h2 : is_finger_extended lm 12 10 <;>
        cases h3 : is_finger_extended lm 16 14 <;>
          cases h4 : is_finger_extended lm 20 18 <;>
            cases h5 : is_thumb_extended lm 4 2 <;>
              simp [List.filter, h1, h2, h3, h4, h5]

/-- C5 witness: for the concrete hand with exactly the index finger
extended (no pair at the exact margin boundary), both parts of the
theorem apply; `is_hand_closed` counts three not-extended fingers and
reports closed, and `detect_gesture` reports `"open"` because one
finger is extended. -/
theorem c5_geometric_classifier_witness :
    is_hand_closed openIndexHand = true ∧
    detect_gesture {} (some openIndexHand) ≠ "closed" := by
  constructor
  · refine (c5_geometric_classifier.1 openIndexHand ?_).mpr ?_
    · intro p hp
      fin_cases hp <;> (simp [openIndexHand, lmGet]; norm_num)
    · simp [finger_pairs, is_finger_extended, openIndexHand, lmGet, List.filter]
      norm_num
  · intro hcl
    rw [c5_geometric_classifier.2 {} openIndexHand (by simp [openIndexHand])] at hcl
    have := hcl.1 (8, 6) (by simp [finger_pairs])
    simp [is_finger_extended, openIndexHand, lmGet] at this
    norm_num at this

/-- C5 counterexample: on a 21-landmark hand with exactly three of the
four non-thumb fingers not extended (index extended, middle/ring/pinky
and thumb not), the claim demands the label `'closed'`, but
`GestureRecognizer.detect_gesture` returns `"open"`. -/
theorem c5_geometric_classifier_counterexample :
    detect_gesture {} (some openIndexHand) = "open" ∧
    (finger_pairs.filter fun p => !is_finger_extended openIndexHand p.1 p.2).length = 3 := by
  constructor
  · simp [detect_gesture, openIndexHand, finger_pairs, is_finger_extended,
      is_thumb_extended, lmGet, List.filter]
    norm_num
  · simp [finger_pairs, is_finger_extended, openIndexHand, lmGet, List.filter]
    norm_num

/-- C6 (amended).  With a full smoothing window, the smoothed label is
`"closed"` iff `"closed"` entries strictly outnumber `"open"` entries;
in every other case — ties included — it is `"open"`.  The result is
always one of the two labels: `get_smoothed_gesture` never produces a
no-label value (its window holds plain labels, never null entries). -/
theorem c6_no_majority_yields_open (s : RecognizerState) (lm : Option Hand)
    (hfull : ¬(dequePush s.smoothing_frames s.gesture_history
      (detect_gesture s lm)).length < s.smoothing_frames) :
    ((get_smoothed_gesture s lm).2 = "closed" ↔
      ((dequePush s.smoothing_frames s.gesture_history
          (detect_gesture s lm)).filter (· = "open")).length <
      ((dequePush s.smoothing_frames s.gesture_history
          (detect_gesture s lm)).filter (· = "closed")).length) ∧
    (((dequePush s.smoothing_frames s.gesture_history
          (detect_gesture s lm)).filter (· = "open")).length =
      ((dequePush s.smoothing_frames s.gesture_history
          (detect_gesture s lm)).filter (· = "closed")).length →
      (get_smoothed_gesture s lm).2 = "open") ∧
    ((get_smoothed_gesture s lm).2 = "open" ∨
      (get_smoothed_gesture s lm).2 = "closed") := by
  simp only [get_smoothed_gesture, if_neg hfull]
  by_cases hlt :
      ((dequePush s.smoothing_frames s.gesture_history
          (detect_gesture s lm)).filter (· = "open")).length <
      ((dequePush s.smoothing_frames s.gesture_history
          (detect_gesture s lm)).filter (· = "closed")).length
  · simp [hlt]
    omega
  · simp [hlt]

/-- C6 witness: a window size of 4 with history
`["closed", "closed", "closed"]` and a current `"open"` detection fills
the window with three `"closed"` against one `"open"`; the strict
majority gives `"closed"`. -/
theorem c6_no_majority_yields_open_witness :
    ¬(dequePush 4 ["closed", "closed", "closed"]
        (detect_gesture
          { smoothing_frames := 4, gesture_history := ["closed", "closed", "closed"],
            previous_gesture := "closed" } (some openIndexHand))).length < 4 ∧
    (get_smoothed_gesture
      { smoothing_frames := 4, gesture_history := ["closed", "closed", "closed"],
        previous_gesture := "closed" } (some openIndexHand)).2 = "closed" := by
  have hfull : ¬(dequePush 4 ["closed", "closed", "closed"]
      (detect_gesture
        { smoothing_frames := 4, gesture_history := ["closed", "closed", "closed"],
          previous_gesture := "closed" } (some openIndexHand))).length < 4 := by
    simp [dequePush]
  refine ⟨hfull, (c6_no_majority_yields_open
    { smoothing_frames := 4, gesture_history := ["closed", "closed", "closed"],
      previous_gesture := "closed" } (some openIndexHand) hfull).1.mpr ?_⟩
  simp [dequePush, detect_gesture, openIndexHand, finger_pairs, is_finger_extended,
    is_thumb_extended, lmGet, List.filter]
  norm_num

/-- C6 counterexample: with window size 4 and history
`["open", "closed", "closed"]`, an `"open"` detection produces the
window `["open", "closed", "closed", "open"]` — two `"open"` against
two `"closed"`, no strict majority — yet the smoothed label returned
is the label `"open"`, not `None` as the claim requires (the function
cannot return a no-label value at all). -/
theorem c6_no_majority_yields_open_counterexample :
    (get_smoothed_gesture
      { smoothing_frames := 4, gesture_history := ["open", "closed", "closed"],
        previous_gesture := "closed" } (some openIndexHand)).2 = "open" ∧
    (get_smoothed_gesture
      { smoothing_frames := 4, gesture_history := ["open", "closed", "closed"],
        previous_gesture := "closed" } (some openIndexHand)).1.gesture_history =
      ["open", "closed", "closed", "open"] ∧
    ((["open", "closed", "closed", "open"] : List String).filter (· = "open")).length =
      ((["open", "closed", "closed", "open"] : List String).filter (· = "closed")).length := by
  refine ⟨?_, ?_, by simp [List.filter]⟩ <;>
    · simp [get_smoothed_gesture, dequePush, detect_gesture, openIndexHand, finger_pairs,
        is_finger_extended, is_thumb_extended, lmGet, List.filter]
      norm_num

theorem db_step1 : app_step emptyTraining {} (app_init {})
    { hands_data := [neutralHand, neutralHand], now := 1 } =
    { state := dbS1, events := [], triggered_emote := none, aborted := false } := by
  rw [app_step_start_state _ _ _ _ rfl (by simp) rfl]
  rfl

theorem db_step2 : app_step emptyTraining {} dbS1
    { hands_data := [neutralHand, neutralHand], now := 149/100 } =
    { state := dbS1, events := [], triggered_emote := none, aborted := false } := by
  rw [app_step_wait_state _ _ _ _ rfl (by simp) (by norm_num [dbS1])
    (by norm_num [dbS1])]

theorem db_step3 : app_step emptyTraining {} dbS1
    { hands_data := [neutralHand], now := 3/2 } =
    { state := dbS3, events := [MouseEvent.moveTo 960 586],
      triggered_emote := none, aborted := false } := by
  rw [app_step_cursor_noabort_state _ _ _ _ rfl (by simp)
    (move_cursor_no_failsafe _ _ _ _ _ _)]
  simp only [dbS1, dbS3, dbM3, mouse_init, app_init]
  norm_num [move_cursor, map_to_screen, smooth_position, sqDist, handle_click,
    is_hand_closed, finger_pairs, lmGet, neutralHand]
  simp

theorem db_step4 : app_step emptyTraining {} dbS3
    { hands_data := [neutralHand, neutralHand], now := 152/100 } =
    { state := dbS4, events := [], triggered_emote := none, aborted := false } := by
  rw [app_step_start_state _ _ _ _ rfl (by simp) rfl]
  rfl

theorem db_step5 : app_step emptyTraining {} dbS4
    { hands_data := [neutralHand, neutralHand], now := 155/100 } =
    { state := dbS4, events := [], triggered_emote := none, aborted := false } := by
  rw [app_step_wait_state _ _ _ _ rfl (by simp) (by norm_num [dbS4])
    (by norm_num [dbS4])]

theorem fire_step2 : app_step emptyTraining {} dbS1
    { hands_data := [neutralHand, neutralHand], now := 12/10 } =
    { state := dbS1, events := [], triggered_emote := none, aborted := false } := by
  rw [app_step_wait_state _ _ _ _ rfl (by simp) (by norm_num [dbS1])
    (by norm_num [dbS1])]

theorem fire_step3 : app_step emptyTraining {} dbS1
    { hands_data := [neutralHand, neutralHand], now := 14/10 } =
    { state := dbS1, events := [], triggered_emote := none, aborted := false } := by
  rw [app_step_wait_state _ _ _ _ rfl (by simp) (by norm_num [dbS1])
    (by norm_num [dbS1])]

theorem fire_step4 : app_step emptyTraining {} dbS1
    { hands_data := [neutralHand, neutralHand], now := 3/2 } =
    { state := fireS4, events := [], triggered_emote := none, aborted := false } := by
  have hpn : (process_emote emptyTraining dbS1.emote [neutralHand, neutralHand]
      ((3 : ℚ)/2)).2 = none := by
    norm_num [process_emote, dbS1]
  rw [app_step_fire_state emptyTraining {} dbS1
    { hands_data := [neutralHand, neutralHand], now := 3/2 } rfl (by simp)
    (by norm_num [dbS1]) (by norm_num [dbS1]) hpn]
  simp [dbS1, fireS4, mouse_init, cleanup, process_emote]
  norm_num

theorem fire_step5 : app_step emptyTraining {} fireS4
    { hands_data := [neutralHand, neutralHand], now := 16/10 } =
    { state := fireS4, events := [], triggered_emote := none, aborted := false } := by
  have hpn : (process_emote emptyTraining fireS4.emote [neutralHand, neutralHand]
      ((16 : ℚ)/10)).2 = none := by
    norm_num [process_emote, fireS4]
  rw [app_step_emote_none_state emptyTraining {} fireS4
    { hands_data := [neutralHand, neutralHand], now := 16/10 } rfl (by simp) hpn]
  simp [fireS4, process_emote]
  norm_num

theorem fire_step6 : app_step emptyTraining {} fireS4
    { hands_data := [neutralHand, neutralHand], now := 22/10 } =
    { state := fireS6, events := [], triggered_emote := none, aborted := false } := by
  have hpn : (process_emote emptyTraining fireS4.emote [neutralHand, neutralHand]
      ((22 : ℚ)/10)).2 = none := by
    norm_num [process_emote, fireS4, emptyTraining, detect_emote_rule_based,
      is_hand_closed, finger_pairs, lmGet, neutralHand]
  rw [app_step_emote_none_state emptyTraining {} fireS4
    { hands_data := [neutralHand, neutralHand], now := 22/10 } rfl (by simp) hpn]
  simp [fireS4, fireS6, emptyTraining, process_emote, detect_emote_rule_based,
    is_hand_closed, finger_pairs, lmGet, neutralHand, dequePush]
  norm_num

/-- C3.  Mode debounce of the main loop.  General part: starting from
any state with the debounce timer unset, whenever the cursor-to-emote
transition conditions hold at a frame (mouse mode, ≥2 hands, timer set,
0.5 s elapsed), there is an earlier processed frame, at least 0.5 s
older, since which every frame showed at least two hands — and the
transition force-releases a held pointer button: the frame's events are
exactly one release when a drag was active and none otherwise, and the
mouse leaves the frame with `is_dragging` false.  Concrete parts, on
the spec's test traces: 0.49 s of two hands, one single-hand frame,
then two hands again produces no transition and stays in mouse mode;
two hands continuously produces exactly one transition, at the first
frame 0.5 s after the countdown started, and the app stays in emote
mode. -/
theorem c3_mode_debounce :
    (∀ (td : TrainingData) (cfg : MouseConfig) (s0 : AppState) (pre : List AppFrame)
      (f : AppFrame),
      s0.last_two_hand_check_time = 0 →
      (app_run td cfg s0 pre).emote_mode = false →
      2 ≤ f.hands_data.length →
      (app_run td cfg s0 pre).last_two_hand_check_time ≠ 0 →
      1/2 ≤ f.now - (app_run td cfg s0 pre).last_two_hand_check_time →
      (∃ j, j < pre.length ∧
        1/2 ≤ f.now - (pre.getD j dfltFrame).now ∧
        ∀ m, j ≤ m → m < pre.length →
          2 ≤ ((pre.getD m dfltFrame).hands_data).length) ∧
      (app_step td cfg (app_run td cfg s0 pre) f).events =
        (if (app_run td cfg s0 pre).mouse.is_dragging then [MouseEvent.release]
         else []) ∧
      (app_step td cfg (app_run td cfg s0 pre) f).state.mouse.is_dragging = false) ∧
    app_transitions emptyTraining {} (app_init {}) debounceResetTrace = [] ∧
    (app_run emptyTraining {} (app_init {}) debounceResetTrace).emote_mode = false ∧
    app_transitions emptyTraining {} (app_init {}) debounceFireTrace = [3] ∧
    (app_run emptyTraining {} (app_init {}) debounceFireTrace).emote_mode = true := by
  refine ⟨?_, ?_, ?_, ?_, ?_⟩
  · intro td cfg s0 pre f h0 hmode hn htne he
    obtain ⟨j, hj, hnow, hcont⟩ := (app_inv_run td cfg s0 h0 pre).2 hmode htne
    have hfire := activation_fire (app_run td cfg s0 pre) f.hands_data.length f.now
      hmode hn htne he
    have hemote : (activation_step (app_run td cfg s0 pre) f.hands_data.length
        f.now).1.emote_mode = true := by rw [hfire]
    obtain ⟨hev, hmouse⟩ := app_step_in_emote td cfg (app_run td cfg s0 pre) f hemote
    refine ⟨⟨j, hj, by rw [hnow]; exact he, hcont⟩, ?_, ?_⟩
    · rw [hev, hfire]
      by_cases hd : (app_run td cfg s0 pre).mouse.is_dragging
      · simp [cleanup, hd]
      · simp [cleanup, hd]
    · rw [hmouse, hfire]
      by_cases hd : (app_run td cfg s0 pre).mouse.is_dragging
      · simp [cleanup, hd]
      · simp only [cleanup, if_neg hd]
        simpa using hd
  · simp only [debounceResetTrace, app_transitions, db_step1, db_step2, db_step3,
      db_step4, db_step5]
    norm_num [app_init, dbS1, dbS3, dbS4]
  · simp only [debounceResetTrace, app_run, List.foldl_cons, List.foldl_nil,
      db_step1, db_step2, db_step3, db_step4, db_step5]
    simp [dbS4]
  · simp only [debounceFireTrace, app_transitions, db_step1, fire_step2, fire_step3,
      fire_step4, fire_step5, fire_step6]
    norm_num [app_init, dbS1, fireS4]
  · simp only [debounceFireTrace, app_run, List.foldl_cons, List.foldl_nil,
      db_step1, fire_step2, fire_step3, fire_step4, fire_step5, fire_step6]
    simp [fireS6]

/-- C3 witness: with a drag in progress at session start and two hands
shown at times 1 and 1.5, the transition conditions hold at the second
frame; applying the theorem, the covering frame exists and the frame's
events are exactly one release (the drag was active), with
`is_dragging` false afterwards. -/
theorem c3_mode_debounce_witness :
    dragS0.mouse.is_dragging = true ∧
    (app_run emptyTraining {} dragS0 c3pre).mouse.is_dragging = true ∧
    ((∃ j, j < c3pre.length ∧
        1/2 ≤ c3f.now - (c3pre.getD j dfltFrame).now ∧
        ∀ m, j ≤ m → m < c3pre.length →
          2 ≤ ((c3pre.getD m dfltFrame).hands_data).length) ∧
      (app_step emptyTraining {} (app_run emptyTraining {} dragS0 c3pre) c3f).events =
        (if (app_run emptyTraining {} dragS0 c3pre).mouse.is_dragging
         then [MouseEvent.release] else []) ∧
      (app_step emptyTraining {} (app_run emptyTraining {} dragS0 c3pre)
        c3f).state.mouse.is_dragging = false) := by
  have hstep := app_step_start_state emptyTraining {} dragS0
    { hands_data := [neutralHand, neutralHand], now := 1 } rfl (by simp) rfl
  have hrun : app_run emptyTraining {} dragS0 c3pre =
      { dragS0 with last_two_hand_check_time := 1 } := by
    simp only [c3pre, app_run, List.foldl_cons, List.foldl_nil, hstep]
  refine ⟨rfl, by rw [hrun]; rfl, c3_mode_debounce.1 emptyTraining {} dragS0 c3pre c3f
    rfl ?_ (by simp [c3f]) ?_ ?_⟩
  · rw [hrun]; rfl
  · rw [hrun]; norm_num
  · rw [hrun]; norm_num [c3f]

/-- C7.  The coordinate mapper matches the spec's formula on every
input: each axis is remapped by `clamp((raw − zoneMin) / (zoneMax −
zoneMin), 0, 1)`, scaled to the screen dimension (integer pixel, hence
the floor), then clamped into `[margin, dim − margin]`; and on the
spec's concrete configuration (zone 0.1–0.9, width 1000, margin 0), raw
0.1 maps to 0, raw 0.9 to 1000, raw 0.05 clamps to 0 (no
extrapolation), and raw 0.5 maps to 500. -/
theorem c7_tracking_zone_remap :
    (∀ (cfg : MouseConfig) (hand_x hand_y : ℚ),
      map_to_screen cfg hand_x hand_y =
        (spec_map_axis cfg.tracking_zone_min cfg.tracking_zone_max cfg.screen_width
          cfg.screen_margin hand_x,
         spec_map_axis cfg.tracking_zone_min cfg.tracking_zone_max cfg.screen_height
          cfg.screen_margin hand_y)) ∧
    (map_to_screen zone10cfg (1/10) (1/10)).1 = 0 ∧
    (map_to_screen zone10cfg (9/10) (9/10)).1 = 1000 ∧
    (map_to_screen zone10cfg (1/20) (1/20)).1 = 0 ∧
    (map_to_screen zone10cfg (1/2) (1/2)).1 = 500 := by
  refine ⟨?_, ?_, ?_, ?_, ?_⟩
  · intro cfg hand_x hand_y
    simp [map_to_screen, spec_map_axis, spec_effective, clampQ, min_comm]
  · norm_num [map_to_screen, zone10cfg]
  · norm_num [map_to_screen, zone10cfg]
  · norm_num [map_to_screen, zone10cfg]
  · norm_num [map_to_screen, zone10cfg]

/-- C8.  Shutdown and emergency-stop safety.  `cleanup` issues exactly
one release iff a drag is active, always leaves `is_dragging` false,
and does nothing when no drag is active.  When `move_cursor` hits the
fail-safe (emergency stop) and aborts, it issues exactly one release if
a drag was active and none otherwise, and control returns with
`is_dragging` false. -/
theorem c8_shutdown_release (cfg : MouseConfig) (s : MouseState)
    (hand_x hand_y : ℚ) (cur_x cur_y : ℤ) :
    ((cleanup s).2 = if s.is_dragging then [MouseEvent.release] else []) ∧
    (cleanup s).1.is_dragging = false ∧
    (s.is_dragging = false → cleanup s = (s, [])) ∧
    ((move_cursor cfg s hand_x hand_y cur_x cur_y true).2.2 = true →
      (move_cursor cfg s hand_x hand_y cur_x cur_y true).2.1 =
        (if s.is_dragging then [MouseEvent.release] else []) ∧
      (move_cursor cfg s hand_x hand_y cur_x cur_y true).1.is_dragging = false) := by
  refine ⟨?_, ?_, ?_, ?_⟩
  · cases h : s.is_dragging <;> simp [cleanup, h]
  · cases h : s.is_dragging <;> simp [cleanup, h]
  · intro h; simp [cleanup, h]
  · simp only [move_cursor, smooth_position]
    repeat' split
    all_goals (intro hab; simp_all)

/-- C8 witness: with a drag active and the pointer far from the mapped
target, the fail-safe abort in `move_cursor` issues exactly one release
and clears `is_dragging`; `cleanup` on a non-dragging controller issues
nothing. -/
theorem c8_shutdown_release_witness :
    (move_cursor {} { mouse_init {} with is_dragging := true }
      (1/2) (1/2) 0 0 true).2.2 = true ∧
    (move_cursor {} { mouse_init {} with is_dragging := true }
      (1/2) (1/2) 0 0 true).2.1 = [MouseEvent.release] ∧
    (move_cursor {} { mouse_init {} with is_dragging := true }
      (1/2) (1/2) 0 0 true).1.is_dragging = false ∧
    (cleanup (mouse_init {})).2 = [] := by
  have hab : (move_cursor {} { mouse_init {} with is_dragging := true }
      (1/2) (1/2) 0 0 true).2.2 = true := by
    norm_num [move_cursor, map_to_screen, smooth_position, sqDist, mouse_init]
  have h := (c8_shutdown_release {} { mouse_init {} with is_dragging := true }
    (1/2) (1/2) 0 0).2.2.2 hab
  have hc := (c8_shutdown_release {} (mouse_init {}) 0 0 0 0).1
  exact ⟨hab, by simpa using h.1, h.2, by simpa [mouse_init] using hc⟩

/-- C9 (amended).  A frame with missing landmarks, or with fewer than
21 points, is not an error: `detect_gesture` returns the previous
gesture, and `get_smoothed_gesture` pushes that previous label — not a
`None` entry — into the smoothing window; the window bound and the rest
of the accumulated history are otherwise preserved (the oldest entry is
evicted only by the usual bounded push). -/
theorem c9_malformed_frame_no_reset (s : RecognizerState) (lm : Option Hand)
    (hmal : lm = none ∨ ∃ l, lm = some l ∧ l.length < 21) :
    detect_gesture s lm = s.previous_gesture ∧
    (get_smoothed_gesture s lm).1.gesture_history =
      dequePush s.smoothing_frames s.gesture_history s.previous_gesture ∧
    (get_smoothed_gesture s lm).1.smoothing_frames = s.smoothing_frames := by
  have hd : detect_gesture s lm = s.previous_gesture := by
    rcases hmal with h | ⟨l, hl, hlen⟩
    · rw [h]; rfl
    · rw [hl]; simp [detect_gesture, hlen]
  refine ⟨hd, ?_, ?_⟩ <;>
    · simp only [get_smoothed_gesture, hd]
      split <;> simp

/-- C9 witness: a `none` landmark frame with previous gesture `"open"`
pushes `"open"` into the window and preserves the window bound. -/
theorem c9_malformed_frame_no_reset_witness :
    detect_gesture
      { smoothing_frames := 5, gesture_history := ["open"], previous_gesture := "open" }
      none = "open" ∧
    (get_smoothed_gesture
      { smoothing_frames := 5, gesture_history := ["open"], previous_gesture := "open" }
      none).1.gesture_history = dequePush 5 ["open"] "open" := by
  have h := c9_malformed_frame_no_reset
    { smoothing_frames := 5, gesture_history := ["open"], previous_gesture := "open" }
    none (Or.inl rfl)
  exact ⟨h.1, h.2.1⟩

/-- C9 counterexample: on a malformed frame (a single landmark, fewer
than 21) with previous gesture `"closed"`, the smoothing window
receives the plain label `"closed"` as its entry for the frame — not a
`None` entry as the claim requires (the window holds plain labels and
has no null value at all).  In `UltimateEmoteMatcher.match_emote`, the
cited no-signal branch (no face detected) even clears the prediction
history outright rather than preserving it. -/
theorem c9_malformed_frame_no_reset_counterexample :
    (get_smoothed_gesture
      { smoothing_frames := 5, gesture_history := ["open", "closed", "closed", "open"],
        previous_gesture := "closed" }
      (some [⟨1/2, 1/2⟩])).1.gesture_history =
      ["open", "closed", "closed", "open", "closed"] ∧
    ([⟨1/2, 1/2⟩] : Hand).length < 21 := by
  constructor
  · simp [get_smoothed_gesture, detect_gesture, dequePush]
  · simp

/-- C10.  `GestureClassifier.predict` error handling: with an empty
training set, or fewer than two hands, or fewer than 21 landmarks on
either of the first two hands, the result is `(None, 0.0)` (the
embedding is total, so no exception is possible); conversely a
non-`None` label is returned only when the training set is nonempty and
feature extraction succeeded. -/
theorem c10_predict_error_handling (td : TrainingData) (hands_data : List Hand) :
    (td.features = [] → predict td hands_data = (none, 0)) ∧
    (extract_features hands_data = none → predict td hands_data = (none, 0)) ∧
    (hands_data.length < 2 → extract_features hands_data = none) ∧
    (∀ h1 h2 rest, hands_data = h1 :: h2 :: rest →
      h1.length < 21 ∨ h2.length < 21 → extract_features hands_data = none) ∧
    (∀ l c, predict td hands_data = (some l, c) →
      td.features ≠ [] ∧ (extract_features hands_data).isSome) := by
  refine ⟨?_, ?_, ?_, ?_, ?_⟩
  · intro h; simp [predict, h]
  · intro h
    by_cases hf : td.features = []
    · simp [predict, hf]
    · simp [predict, hf, h]
  · intro h; simp [extract_features, h]
  · intro h1 h2 rest hh hshort
    subst hh
    have hlen : ¬(h1 :: h2 :: rest).length < 2 := by
      simp only [List.length_cons]; omega
    rcases hshort with hs1 | hs2
    · simp [extract_features, hand_feature_block, hlen, hs1]
    · by_cases hs1 : h1.length < 21
      · simp [extract_features, hand_feature_block, hlen, hs1]
      · simp [extract_features, hand_feature_block, hlen, hs1, hs2]
  · intro l c h
    by_cases hf : td.features = []
    · rw [show predict td hands_data = (none, 0) by simp [predict, hf]] at h
      exact absurd h (by simp)
    · by_cases he : extract_features hands_data = none
      · rw [show predict td hands_data = (none, 0) by simp [predict, hf, he]] at h
        exact absurd h (by simp)
      · exact ⟨hf, Option.isSome_iff_ne_none.mpr he⟩

/-- C10 witness: with the empty training set and no hands at all, the
theorem's first part gives `predict = (None, 0.0)`, and the third part
gives failed extraction. -/
theorem c10_predict_error_handling_witness :
    emptyTraining.features = [] ∧
    predict emptyTraining [] = (none, 0) ∧
    extract_features [] = none := by
  refine ⟨rfl, (c10_predict_error_handling emptyTraining []).1 rfl, ?_⟩
  exact (c10_predict_error_handling emptyTraining []).2.2.1 (by simp)

/-- C1 counterexample: the claim quantifies over every execution of the
trigger pipeline, but `ClashEmoteApp.process_emote` emits a trigger for
`"GOBLIN"` on the very first frame the pose is visible (initial state:
empty detection history, `last_emote_time = 0`): the label has been
current for 0 seconds, less than any positive hold time (the matcher's
default `match_hold_time` is 1.5 s), yet the trigger fires. -/
theorem c1_hold_time_lower_bound_counterexample :
    (process_emote emptyTraining {} [goblinHand, goblinHand] 10).2 = some "GOBLIN" ∧
    ({} : EmoteState).emote_detection_history = [] ∧
    ({} : EmoteState).last_emote_time = 0 := by
  refine ⟨?_, rfl, rfl⟩
  simp only [process_emote, emptyTraining, detect_emote_rule_based, is_hand_closed,
    finger_pairs, lmGet, goblinHand]
  norm_num


